import Mathlib

/-!
Shallow embedding of the nadlan-proxy HTTP gateway (`src/app.py`).

JSON values are modelled by the inductive `Json`; Python dictionaries are
field lists with distinct keys, read through `List.lookup` (first match,
matching Python dicts, whose keys are unique).  Python operations that can
raise are modelled in `Except String`; an `Except.error` escaping a handler
model corresponds to an exception escaping the Flask handler uncaught, while
each handler's `try/except` boundary appears explicitly as a `match` that
turns an inner `Except.error` into a 502 response.  Upstream HTTP is an
oracle function supplied as a parameter; each handler also returns the list
of upstream calls it performed.
-/

inductive Json where
  | null
  | bool (b : Bool)
  | num (n : Int)
  | str (s : String)
  | arr (xs : List Json)
  | obj (fields : List (String × Json))

mutual

def Json.decEq : (a b : Json) → Decidable (a = b)
  | .null, .null => .isTrue rfl
  | .bool a, .bool b =>
    if h : a = b then .isTrue (by rw [h]) else .isFalse (by simp [h])
  | .num a, .num b =>
    if h : a = b then .isTrue (by rw [h]) else .isFalse (by simp [h])
  | .str a, .str b =>
    if h : a = b then .isTrue (by rw [h]) else .isFalse (by simp [h])
  | .arr xs, .arr ys =>
    match Json.decEqList xs ys with
    | .isTrue h => .isTrue (by rw [h])
    | .isFalse h => .isFalse (by simp [h])
  | .obj xs, .obj ys =>
    match Json.decEqFields xs ys with
    | .isTrue h => .isTrue (by rw [h])
    | .isFalse h => .isFalse (by simp [h])
  | .null, .bool _ | .null, .num _ | .null, .str _ | .null, .arr _ | .null, .obj _
  | .bool _, .null | .bool _, .num _ | .bool _, .str _ | .bool _, .arr _ | .bool _, .obj _
  | .num _, .null | .num _, .bool _ | .num _, .str _ | .num _, .arr _ | .num _, .obj _
  | .str _, .null | .str _, .bool _ | .str _, .num _ | .str _, .arr _ | .str _, .obj _
  | .arr _, .null | .arr _, .bool _ | .arr _, .num _ | .arr _, .str _ | .arr _, .obj _
  | .obj _, .null | .obj _, .bool _ | .obj _, .num _ | .obj _, .str _ | .obj _, .arr _ =>
    .isFalse (by simp)

def Json.decEqList : (xs ys : List Json) → Decidable (xs = ys)
  | [], [] => .isTrue rfl
  | [], _ :: _ => .isFalse (by simp)
  | _ :: _, [] => .isFalse (by simp)
  | x :: xs, y :: ys =>
    match Json.decEq x y, Json.decEqList xs ys with
    | .isTrue h1, .isTrue h2 => .isTrue (by rw [h1, h2])
    | .isFalse h1, _ => .isFalse (by simp [h1])
    | _, .isFalse h2 => .isFalse (by simp [h2])

def Json.decEqFields : (xs ys : List (String × Json)) → Decidable (xs = ys)
  | [], [] => .isTrue rfl
  | [], _ :: _ => .isFalse (by simp)
  | _ :: _, [] => .isFalse (by simp)
  | (k1, v1) :: xs, (k2, v2) :: ys =>
    if h1 : k1 = k2 then
      match Json.decEq v1 v2, Json.decEqFields xs ys with
      | .isTrue h2, .isTrue h3 => .isTrue (by rw [h1, h2, h3])
      | .isFalse h2, _ => .isFalse (by simp [h2])
      | _, .isFalse h3 => .isFalse (by simp [h3])
    else .isFalse (by simp [h1])

end

instance : DecidableEq Json := Json.decEq

/-- Python truthiness (`bool(x)`) on JSON-representable values. -/
def Json.truthy : Json → Bool
  | .null => false
  | .bool b => b
  | .num n => decide (n ≠ 0)
  | .str s => decide (s ≠ "")
  | .arr xs => decide (xs ≠ [])
  | .obj fs => decide (fs ≠ [])

/-- Python `a or b`: `a` when truthy, else `b`. -/
def pyOr (a b : Json) : Json :=
  if a.truthy then a else b

/-- Python attribute access `x.get`: only dicts have `.get`; anything else
raises `AttributeError`. -/
def Json.asObj : Json → Except String (List (String × Json))
  | .obj fs => .ok fs
  | _ => .error "AttributeError: no attribute get"

/-- Iterating something that is not a list. -/
def Json.asArr : Json → Except String (List Json)
  | .arr xs => .ok xs
  | _ => .error "TypeError: object is not iterable"

/-- Python `d.get(k)` (default `None`). -/
def pyGet (j : Json) (k : String) : Except String Json := do
  let fs ← j.asObj
  return ((fs.lookup k).getD .null)

/-- Python `d.get(k, default)`. -/
def pyGetD (j : Json) (k : String) (d : Json) : Except String Json := do
  let fs ← j.asObj
  return ((fs.lookup k).getD d)

/-- Python `str.strip()`: drop whitespace from both ends. -/
def pyStrip (s : String) : String :=
  ⟨((s.data.dropWhile Char.isWhitespace).reverse.dropWhile Char.isWhitespace).reverse⟩

/-- Python `int(x)` applied to a string: strip whitespace, then an optional
sign followed by at least one decimal digit. -/
def pyStrToInt (s : String) : Option Int :=
  let core : List Char → Option Int := fun ds =>
    if ds ≠ [] ∧ ds.all Char.isDigit then
      some (ds.foldl (fun acc d => 10 * acc + ((d.toNat : Int) - 48)) 0)
    else none
  match (pyStrip s).data with
  | [] => none
  | c :: cs =>
    if c = '-' then (core cs).map (fun n => -n)
    else if c = '+' then core cs
    else core (c :: cs)

/-- Python `int(x)` on JSON-representable values: ints pass through, bools
become 0/1, strings are parsed as (optionally signed) decimal integers after
stripping whitespace, everything else raises. -/
def pyInt (j : Json) : Except String Int :=
  match j with
  | .num n => .ok n
  | .bool b => .ok (if b then 1 else 0)
  | .str s =>
    match pyStrToInt s with
    | some n => .ok n
    | none => .error "ValueError: invalid literal for int()"
  | _ => .error "TypeError: int() argument"

/-- Python `repr` of a list of strings, as used by the f-string
`f"Missing fields: \x7bmissing\x7d"`. -/
def pyListRepr (xs : List String) : String :=
  "[" ++ String.intercalate ", " (xs.map (fun s => "\x27" ++ s ++ "\x27")) ++ "]"

/-- An HTTP response of the proxy: status code and JSON body. -/
structure HttpResponse where
  status : Nat
  body : Json
deriving DecidableEq

/-! ## Upstream client (`nadlan_post`, `gov_get`) -/

deriving instance DecidableEq for Except

/-- Result of running `nadlan_post`: the returned JSON or the raised error,
the `time.sleep` durations performed (in seconds, as rationals), and how many
POST attempts were made. -/
structure PostResult where
  result : Except String Json
  sleeps : List ℚ
  calls : Nat
deriving DecidableEq

/-- The retry loop of `nadlan_post` from `attempt` onwards.  `attempts i` is
the outcome of the `i`-th POST (0-based): `ok` the parsed JSON on a 2xx
response, `error` when the HTTP layer raises (timeout, connection failure,
non-2xx via `raise_for_status`).  On an error the loop sleeps
`1.5 * (attempt + 1)` seconds unless this was the last attempt; falling off
the loop raises `RuntimeError(f"All \x7bretries\x7d attempts to nadlan failed")`. -/
def nadlanPostGo (attempts : Nat → Except String Json) (retries attempt : Nat) : PostResult :=
  if attempt < retries then
    match attempts attempt with
    | .ok j => ⟨.ok j, [], 1⟩
    | .error _ =>
      let rest := nadlanPostGo attempts retries (attempt + 1)
      { result := rest.result
        sleeps :=
          if attempt < retries - 1 then (3 / 2 : ℚ) * (attempt + 1) :: rest.sleeps
          else rest.sleeps
        calls := rest.calls + 1 }
  else ⟨.error ("All " ++ toString retries ++ " attempts to nadlan failed"), [], 0⟩
termination_by retries - attempt

/-- `nadlan_post(endpoint, payload, retries)`; the endpoint and payload are
folded into the `attempts` oracle. -/
def nadlan_post (attempts : Nat → Except String Json) (retries : Nat := 3) : PostResult :=
  nadlanPostGo attempts retries 0

/-- `json.dumps` on a string-to-string dict (used for `filters`). -/
def jsonDumpsObj (fs : List (String × String)) : String :=
  "\x7b" ++ String.intercalate ", "
    (fs.map (fun p => "\"" ++ p.1 ++ "\": \"" ++ p.2 ++ "\"")) ++ "\x7d"

/-- The query-parameter dict built by `gov_get` (in insertion order).
`filters = []` models Python `filters=None` as well as an empty dict: both
are falsy, so the `filters` key is added only for a nonempty dict. -/
def govGetParams (resource_id q : String) (filters : List (String × String))
    (limit : Nat) : List (String × String) :=
  let params := [("resource_id", resource_id), ("q", q), ("limit", toString limit)]
  if filters.isEmpty then params else params ++ [("filters", jsonDumpsObj filters)]

/-- `gov_get(resource_id, q, filters=None, limit=10)`: a single GET with the
params above; `raise_for_status` means a non-2xx (or network) failure is the
oracle's `error`, propagated unchanged with no retry.  Returns the outcome
and the number of HTTP requests issued. -/
def gov_get (http : List (String × String) → Except String Json)
    (resource_id q : String) (filters : List (String × String) := [])
    (limit : Nat := 10) : Except String Json × Nat :=
  (http (govGetParams resource_id q filters limit), 1)

/-! ## Request handlers -/

/-- Resource id of the cities dataset. -/
def citiesResource : String := "b7cf8f14-64a2-4b33-8d4b-edb286fdbd37"

/-- Resource id of the streets dataset. -/
def streetsResource : String := "a7296d1a-f6c1-4b8a-b6b8-3f7fcf7e5dfd"

/-- Body of the `except` branch shared by all handlers:
`jsonify({"error": str(e)}), 502`. -/
def errorResponse (e : String) : HttpResponse :=
  ⟨502, .obj [("error", .str e)]⟩

/-- The record loop of `/cities`: for each record take
`r.get("שם_ישוב") or r.get("שם_יישוב") or ""` as the name and
`r.get("סמל_ישוב") or ""` as the code, appending `{"name":…, "code":…}`
whenever the name is truthy.  There is no deduplication here. -/
def citiesLoop : List Json → Except String (List Json)
  | [] => .ok []
  | r :: rs => do
    let n1 ← pyGet r "שם_ישוב"
    let n2 ← pyGet r "שם_יישוב"
    let name := pyOr (pyOr n1 n2) (.str "")
    let c ← pyGet r "סמל_ישוב"
    let code := pyOr c (.str "")
    let rest ← citiesLoop rs
    return (if name.truthy then Json.obj [("name", name), ("code", code)] :: rest else rest)

/-- The part of `/cities` inside `try` after `gov_get` returned `data`. -/
def citiesBody (data : Json) : Except String Json := do
  let result ← pyGetD data "result" (.obj [])
  let recordsJ ← pyGetD result "records" (.arr [])
  let records ← recordsJ.asArr
  let rs ← citiesLoop records
  return .obj [("results", .arr rs)]

/-- The `/cities` handler.  `gov` maps the query params of a `gov_get` call
to its outcome; `qArg` is `request.args.get("q")` (`none` when absent, which
Python defaults to `""`).  Returns the response and the list of upstream
calls (each identified by its query params). -/
def citiesHandler (gov : List (String × String) → Except String Json)
    (qArg : Option String) : HttpResponse × List (List (String × String)) :=
  let q := pyStrip (qArg.getD "")
  if q.length < 2 then (⟨200, .obj [("results", .arr [])]⟩, [])
  else
    let params := govGetParams citiesResource q [] 8
    let resp :=
      match gov params with
      | .error e => errorResponse e
      | .ok data =>
        match citiesBody data with
        | .ok b => ⟨200, b⟩
        | .error e => errorResponse e
    (resp, [params])

/-- The record loop of `/streets`: name is
`r.get("שם_רחוב") or r.get("street_name") or ""`; a record is appended as
`{"name":…}` when the name is truthy and not yet in `seen`, which then
grows by that name. -/
def streetsLoop (seen : List Json) : List Json → Except String (List Json)
  | [] => .ok []
  | r :: rs => do
    let n1 ← pyGet r "שם_רחוב"
    let n2 ← pyGet r "street_name"
    let name := pyOr (pyOr n1 n2) (.str "")
    if name.truthy = true ∧ name ∉ seen then do
      let rest ← streetsLoop (name :: seen) rs
      return Json.obj [("name", name)] :: rest
    else
      streetsLoop seen rs

/-- The part of `/streets` inside `try` after `gov_get` returned `data`. -/
def streetsBody (data : Json) : Except String Json := do
  let result ← pyGetD data "result" (.obj [])
  let recordsJ ← pyGetD result "records" (.arr [])
  let records ← recordsJ.asArr
  let rs ← streetsLoop [] records
  return .obj [("results", .arr rs)]

/-- The `/streets` handler; `qArg` and `cityCodeArg` are the raw query
parameters `q` and `city_code`. -/
def streetsHandler (gov : List (String × String) → Except String Json)
    (qArg cityCodeArg : Option String) : HttpResponse × List (List (String × String)) :=
  let q := pyStrip (qArg.getD "")
  let city_code := pyStrip (cityCodeArg.getD "")
  if q.length < 2 then (⟨200, .obj [("results", .arr [])]⟩, [])
  else
    let filters := if city_code ≠ "" then [("סמל_ישוב", city_code)] else []
    let params := govGetParams streetsResource q filters 12
    let resp :=
      match gov params with
      | .error e => errorResponse e
      | .ok data =>
        match streetsBody data with
        | .ok b => ⟨200, b⟩
        | .error e => errorResponse e
    (resp, [params])

/-- The `/search` handler.  `nad` maps an endpoint and its query params to
the outcome of `nadlan_get`; the second component lists the upstream calls
made (endpoint with query params, `resultType=0` serialized as `"0"`). -/
def searchHandler (nad : String → List (String × String) → Except String Json)
    (qArg : Option String) : HttpResponse × List (String × List (String × String)) :=
  let q := pyStrip (qArg.getD "")
  if q = "" then
    (⟨400, .obj [("error", .str "Missing query parameter \x27q\x27")]⟩, [])
  else
    let params := [("searchText", q), ("resultType", "0")]
    let resp :=
      match nad "GetSuggestV2" params with
      | .error e => errorResponse e
      | .ok data =>
        match data with
        | .arr xs => ⟨200, .obj [("results", .arr xs)]⟩
        | _ =>
          match pyGetD data "Results" (.arr []) with
          | .ok r => ⟨200, .obj [("results", r)]⟩
          | .error e => errorResponse e
    (resp, [("GetSuggestV2", params)])

/-- Python `d[k]`: raises `KeyError` when absent. -/
def pyIndex (fs : List (String × Json)) (k : String) : Except String Json :=
  match fs.lookup k with
  | some v => .ok v
  | none => .error ("KeyError: " ++ k)

/-- The required fields of `POST /deals`, in source order. -/
def requiredFields : List String := ["ObjectID", "DescLayerID", "ResultLable"]

/-- `missing = [k for k in required if not body.get(k)]`. -/
def missingOf (fs : List (String × Json)) : List String :=
  requiredFields.filter (fun k => !((fs.lookup k).getD Json.null).truthy)

/-- The upstream payload dict built by `/deals` (lines 172–200 of
`src/app.py`), values in Python evaluation order (`int(body.get("Rooms",0))`
first, `int(body.get("PageNo",1))` at its slot near the end).  This code runs
BEFORE the handler's `try` block, so its errors are the handler's errors. -/
def dealsPayload (fs : List (String × Json)) : Except String (List (String × Json)) := do
  let rooms ← pyInt ((fs.lookup "Rooms").getD (Json.num 0))
  let resultLable ← pyIndex fs "ResultLable"
  let objectID ← pyIndex fs "ObjectID"
  let descLayerID ← pyIndex fs "DescLayerID"
  let pageNo ← pyInt ((fs.lookup "PageNo").getD (Json.num 1))
  return [
    ("MoreAssestsType", .num 0),
    ("FillterRoomNum", .num rooms),
    ("GridDisplayType", .num 0),
    ("ResultLable", resultLable),
    ("ResultType", .num 1),
    ("ObjectID", objectID),
    ("ObjectIDType", (fs.lookup "ObjectIDType").getD (.str "text")),
    ("ObjectKey", (fs.lookup "ObjectKey").getD (.str "UNIQ_ID")),
    ("DescLayerID", descLayerID),
    ("Alert", .null),
    ("X", (fs.lookup "X").getD (.num 0)),
    ("Y", (fs.lookup "Y").getD (.num 0)),
    ("Gush", .str ""),
    ("Parcel", .str ""),
    ("showLotParcel", .bool false),
    ("showLotAddress", .bool false),
    ("OriginalSearchString", (fs.lookup "ResultLable").getD (.str "")),
    ("MutipuleResults", .bool false),
    ("ResultsOptions", .null),
    ("CurrentLavel", .num 3),
    ("Navs", .arr []),
    ("QueryMapParams", .null),
    ("isHistorical", .bool false),
    ("PageNo", .num pageNo),
    ("OrderByFilled", .str "DEALDATETIME"),
    ("OrderByDescending", .bool true),
    ("Distance", .num 0)]

/-- The `POST /deals` handler.  `raw` is `request.get_json(silent=True)`
(`none` when the body is absent or not parseable as JSON); `post` maps an
endpoint and payload to the overall outcome of `nadlan_post`.  The outer
`Except` is an exception escaping the handler uncaught: only the upstream
call and the response reshaping are inside `try`, while body access,
validation and payload construction run before it. -/
def dealsHandler (post : String → List (String × Json) → Except String Json)
    (raw : Option Json) :
    Except String (HttpResponse × List (String × List (String × Json))) := do
  let parsed := raw.getD Json.null
  let body := if parsed.truthy then parsed else Json.obj []
  let fs ← body.asObj
  let missing := missingOf fs
  if missing.isEmpty then do
    let payload ← dealsPayload fs
    match post "GetAssestAndDeals" payload with
    | .error e => return (errorResponse e, [("GetAssestAndDeals", payload)])
    | .ok data =>
      match (do
        let deals ← pyGetD data "AllResults" (.arr [])
        let total ← pyGetD data "TotalCount" (.num 0)
        Except.ok (Json.obj [("deals", deals), ("totalCount", total),
          ("pageNo", (payload.lookup "PageNo").getD .null)]) : Except String Json) with
      | .ok b => return (⟨200, b⟩, [("GetAssestAndDeals", payload)])
      | .error e => return (errorResponse e, [("GetAssestAndDeals", payload)])
  else
    return (⟨400, .obj [("error", .str ("Missing fields: " ++ pyListRepr missing))]⟩, [])

/-- The name extracted from one `/streets` record:
`r.get("שם_רחוב") or r.get("street_name") or ""`. -/
def streetNameOf (r : Json) : Except String Json := do
  let n1 ← pyGet r "שם_רחוב"
  let n2 ← pyGet r "street_name"
  return pyOr (pyOr n1 n2) (.str "")

/-- The sequence of names the `/streets` loop extracts, in record order. -/
def extractStreetNames : List Json → Except String (List Json)
  | [] => .ok []
  | r :: rs => do
    let n ← streetNameOf r
    let ns ← extractStreetNames rs
    return n :: ns

/-- The filtering the `/streets` loop applies to the extracted name
sequence: keep a name when it is truthy and not yet seen, threading the
`seen` set. -/
def dedupTruthy (seen : List Json) : List Json → List Json
  | [] => []
  | n :: ns =>
    if n.truthy = true ∧ n ∉ seen then n :: dedupTruthy (n :: seen) ns
    else dedupTruthy seen ns

/-! ## C1: retry behavior of `nadlan_post` -/

/-- C1: with `retries = 3`, the POST is attempted at most 3 times; a failed
attempt `i` (1-based number `i+1`) is followed by a `1.5 * (i+1)` second wait
whenever a further attempt remains; when attempts 1 and 2 fail and attempt 3
succeeds the successful JSON is returned with no error and the backoff waits
are `[1.5, 3.0]` (total at least 4.5 s); when all 3 attempts fail the call
raises `All 3 attempts to nadlan failed`. -/
theorem nadlan_post_retry_spec (attempts : Nat → Except String Json) :
    (nadlan_post attempts 3).calls ≤ 3 ∧
    (∀ j, attempts 0 = .ok j →
      nadlan_post attempts 3 = ⟨.ok j, [], 1⟩) ∧
    (∀ e1 j, attempts 0 = .error e1 → attempts 1 = .ok j →
      nadlan_post attempts 3 = ⟨.ok j, [3 / 2], 2⟩) ∧
    (∀ e1 e2 j, attempts 0 = .error e1 → attempts 1 = .error e2 → attempts 2 = .ok j →
      nadlan_post attempts 3 = ⟨.ok j, [3 / 2, 3], 3⟩ ∧
      (3 / 2 + 3 : ℚ) ≤ ((nadlan_post attempts 3).sleeps).sum) ∧
    (∀ e1 e2 e3, attempts 0 = .error e1 → attempts 1 = .error e2 → attempts 2 = .error e3 →
      nadlan_post attempts 3 = ⟨.error "All 3 attempts to nadlan failed", [3 / 2, 3], 3⟩) := by
  refine ⟨?_, ?_, ?_, ?_, ?_⟩
  · rcases h0 : attempts 0 with e0 | j0
    · rcases h1 : attempts 1 with e1 | j1
      · rcases h2 : attempts 2 with e2 | j2 <;>
          simp [nadlan_post, nadlanPostGo, h0, h1, h2]
      · simp [nadlan_post, nadlanPostGo, h0, h1]
    · simp [nadlan_post, nadlanPostGo, h0]
  · intro j h0
    simp [nadlan_post, nadlanPostGo, h0]
  · intro e1 j h0 h1
    simp [nadlan_post, nadlanPostGo, h0, h1]
  · intro e1 e2 j h0 h1 h2
    constructor
    · simp [nadlan_post, nadlanPostGo, h0, h1, h2]
      norm_num
    · simp [nadlan_post, nadlanPostGo, h0, h1, h2]
      norm_num
  · intro e1 e2 e3 h0 h1 h2
    simp [nadlan_post, nadlanPostGo, h0, h1, h2]
    norm_num
    rfl

/-- Witness for C1 at a concrete oracle failing twice then succeeding. -/
theorem nadlan_post_retry_spec_witness :
    nadlan_post (fun i => if i < 2 then .error "boom" else .ok (.str "deals")) 3 =
      ⟨.ok (.str "deals"), [3 / 2, 3], 3⟩ :=
  ((nadlan_post_retry_spec
    (fun i => if i < 2 then .error "boom" else .ok (.str "deals"))).2.2.2.1
    "boom" "boom" (.str "deals") rfl rfl rfl).1

/-! ## Shared lemmas -/

/-- Reduction of the `Except` monad bind on a success. -/
@[simp] theorem except_bind_ok {ε α β : Type} (a : α) (f : α → Except ε β) :
    (Except.ok a >>= f) = f a := rfl

/-- Reduction of the `Except` monad bind on an error. -/
@[simp] theorem except_bind_error {ε α β : Type} (e : ε) (f : α → Except ε β) :
    ((Except.error e : Except ε α) >>= f) = Except.error e := rfl

/-- `pure` in the `Except` monad is `Except.ok`. -/
@[simp] theorem except_pure_eq {ε α : Type} (a : α) :
    (pure a : Except ε α) = Except.ok a := rfl

/-- `body = request.get_json(silent=True) or \x7b\x7d` leaves an object body
unchanged: a falsy object is exactly the empty dict. -/
theorem deals_body_obj (fs : List (String × Json)) :
    (if (Json.obj fs).truthy then Json.obj fs else Json.obj []) = Json.obj fs := by
  by_cases hf : (Json.obj fs).truthy
  · simp [hf]
  · have hnil : fs = [] := by simpa [Json.truthy] using hf
    simp [hnil]

/-! ## C4: missing required fields in `POST /deals` -/

/-- C4: when any of `ObjectID`, `DescLayerID`, `ResultLable` is absent or
falsy in the JSON body, `POST /deals` answers 400 with a message naming
exactly the missing fields (those required keys whose value is absent or
falsy, in source order), and performs no upstream call. -/
theorem deals_missing_fields_400 (post : String → List (String × Json) → Except String Json)
    (fs : List (String × Json)) (h : missingOf fs ≠ []) :
    dealsHandler post (some (.obj fs)) =
      .ok (⟨400, .obj [("error",
        .str ("Missing fields: " ++ pyListRepr (missingOf fs)))]⟩, []) ∧
    (∀ k, k ∈ missingOf fs ↔
      (k ∈ requiredFields ∧ ((fs.lookup k).getD Json.null).truthy = false)) := by
  constructor
  · simp [dealsHandler, deals_body_obj, Json.asObj, List.isEmpty_iff, h]
  · intro k
    simp [missingOf, List.mem_filter]

/-- Witness for C4: a body carrying only `ObjectID` is refused naming
`DescLayerID` and `ResultLable`. -/
theorem deals_missing_fields_400_witness :
    dealsHandler (fun _ _ => .error "down") (some (.obj [("ObjectID", .str "x")])) =
      .ok (⟨400, .obj [("error",
        .str ("Missing fields: " ++ pyListRepr (missingOf [("ObjectID", .str "x")])))]⟩, []) :=
  (deals_missing_fields_400 (fun _ _ => .error "down") [("ObjectID", .str "x")] (by decide)).1

/-! ## C10: absent or unparseable `POST /deals` body -/

/-- C10: when the request body is absent or not parseable as JSON
(`request.get_json(silent=True)` yields `None`, modelled `none`), and more
generally whenever the parsed value is falsy, the body is replaced by the
empty dict: the response is 400 naming all three required fields, with no
upstream call and no error escaping from the parse failure itself. -/
theorem deals_unparseable_body_400 (post : String → List (String × Json) → Except String Json)
    (raw : Option Json) (h : (raw.getD Json.null).truthy = false) :
    dealsHandler post raw =
      .ok (⟨400, .obj [("error",
        .str "Missing fields: [\x27ObjectID\x27, \x27DescLayerID\x27, \x27ResultLable\x27]")]⟩,
        []) := by
  have hmiss : missingOf [] = requiredFields := by decide
  simp [dealsHandler, h, Json.asObj, hmiss, List.isEmpty_iff, requiredFields, pyListRepr]
  rfl

/-- Witness for C10 at an absent body. -/
theorem deals_unparseable_body_400_witness :
    dealsHandler (fun _ _ => .error "down") none =
      .ok (⟨400, .obj [("error",
        .str "Missing fields: [\x27ObjectID\x27, \x27DescLayerID\x27, \x27ResultLable\x27]")]⟩,
        []) :=
  deals_unparseable_body_400 (fun _ _ => .error "down") none (by decide)

/-! ## C5: short autocomplete queries -/

/-- C5: when the `q` parameter of `/cities` or `/streets`, after trimming,
is shorter than 2 characters, the handler answers 200 with empty results and
performs no upstream call. -/
theorem autocomplete_short_query (gov gov2 : List (String × String) → Except String Json)
    (qArg cityCodeArg : Option String) (h : (pyStrip (qArg.getD "")).length < 2) :
    citiesHandler gov qArg = (⟨200, .obj [("results", .arr [])]⟩, []) ∧
    streetsHandler gov2 qArg cityCodeArg = (⟨200, .obj [("results", .arr [])]⟩, []) := by
  constructor
  · simp [citiesHandler, h]
  · simp [streetsHandler, h]

/-- Witness for C5 with the one-character query `"a"`. -/
theorem autocomplete_short_query_witness :
    citiesHandler (fun _ => .error "down") (some "a") =
        (⟨200, .obj [("results", .arr [])]⟩, []) ∧
    streetsHandler (fun _ => .error "down") (some "a") (some "5000") =
        (⟨200, .obj [("results", .arr [])]⟩, []) :=
  autocomplete_short_query (fun _ => .error "down") (fun _ => .error "down")
    (some "a") (some "5000") (by decide)

/-! ## C8: missing `q` on `GET /search` -/

/-- C8: `/search` answers 400 with body
`\x7b"error": "Missing query parameter 'q'"\x7d` exactly when `q` is absent
or trims to the empty string (with no upstream call); otherwise the upstream
`GetSuggestV2` call is made with `searchText = q` and `resultType = 0`. -/
theorem search_missing_q_400 (nad : String → List (String × String) → Except String Json)
    (qArg : Option String) :
    ((searchHandler nad qArg).1 =
        ⟨400, .obj [("error", .str "Missing query parameter \x27q\x27")]⟩ ↔
      pyStrip (qArg.getD "") = "") ∧
    (pyStrip (qArg.getD "") = "" → (searchHandler nad qArg).2 = []) ∧
    (pyStrip (qArg.getD "") ≠ "" →
      (searchHandler nad qArg).2 =
        [("GetSuggestV2",
          [("searchText", pyStrip (qArg.getD "")), ("resultType", "0")])]) := by
  by_cases hq : pyStrip (qArg.getD "") = ""
  · refine ⟨by simp [searchHandler, hq], by simp [searchHandler, hq], fun h => absurd hq h⟩
  · refine ⟨⟨fun hr => ?_, fun h => absurd h hq⟩,
      fun h => absurd h hq, by simp [searchHandler, hq]⟩
    have hst : (searchHandler nad qArg).1.status = 400 := by rw [hr]
    revert hst
    simp only [searchHandler, hq, if_neg hq]
    rcases nad "GetSuggestV2"
        [("searchText", pyStrip (qArg.getD "")), ("resultType", "0")] with e | data
    · simp [errorResponse]
    · rcases data with _ | b | n | s | xs | fs <;>
        simp [errorResponse, pyGetD, Json.asObj]

/-- Witness for C8: a nonblank query triggers the upstream call. -/
theorem search_missing_q_400_witness :
    (searchHandler (fun _ _ => .error "down") (some "dizengoff")).2 =
      [("GetSuggestV2", [("searchText", pyStrip "dizengoff"), ("resultType", "0")])] :=
  (search_missing_q_400 (fun _ _ => .error "down") (some "dizengoff")).2.2 (by decide)

/-! ## C9: shape of a successful `/search` response -/

/-- C9: on a successful upstream `GetSuggestV2` call, `/search` answers 200
with `\x7b"results": r\x7d` where `r` is the upstream response itself when it
is a list, and the object's `Results` field (defaulting to `[]` when absent)
when it is an object. -/
theorem search_success_shape (nad : String → List (String × String) → Except String Json)
    (qArg : Option String) (hq : pyStrip (qArg.getD "") ≠ "") :
    (∀ xs, nad "GetSuggestV2"
        [("searchText", pyStrip (qArg.getD "")), ("resultType", "0")] = .ok (.arr xs) →
      (searchHandler nad qArg).1 = ⟨200, .obj [("results", .arr xs)]⟩) ∧
    (∀ fs, nad "GetSuggestV2"
        [("searchText", pyStrip (qArg.getD "")), ("resultType", "0")] = .ok (.obj fs) →
      (searchHandler nad qArg).1 =
        ⟨200, .obj [("results", (fs.lookup "Results").getD (.arr []))]⟩) := by
  constructor
  · intro xs hnad
    simp [searchHandler, hq, hnad]
  · intro fs hnad
    simp [searchHandler, hq, hnad, pyGetD, Json.asObj]

/-- Witness for C9 at an upstream object response carrying a `Results`
field. -/
theorem search_success_shape_witness :
    (searchHandler
      (fun _ _ => .ok (.obj [("Results", .arr [.str "hit"])])) (some "ab")).1 =
      ⟨200, .obj [("results", .arr [.str "hit"])]⟩ :=
  (search_success_shape (fun _ _ => .ok (.obj [("Results", .arr [.str "hit"])]))
    (some "ab") (by decide)).2 [("Results", .arr [.str "hit"])] rfl

/-! ## C2: handler error boundary -/

/-- C2 counterexample: a `POST /deals` body with all required fields present
and `Rooms = "abc"` makes `int(body.get("Rooms", 0))` raise during payload
construction, which runs BEFORE the handler's `try` block: the exception
escapes the handler uncaught instead of becoming a 502 response. -/
theorem deals_uncaught_valueerror :
    dealsHandler (fun _ _ => .ok (.obj []))
      (some (.obj [("ObjectID", .str "1"), ("DescLayerID", .str "2"),
        ("ResultLable", .str "3"), ("Rooms", .str "abc")])) =
      .error "ValueError: invalid literal for int()" := by
  decide

/-- C2 amended: exceptions raised inside each handler's `try` block are
caught and converted to a 502 `\x7b"error": msg\x7d` response — `/cities`,
`/streets` and `/search` never let an exception escape (statuses 200/400/502
only), and `/deals` returns a response whenever its pre-`try` payload
construction succeeds — but in `/deals` the body validation and payload
construction (including the `int` conversions of `Rooms` and `PageNo`) run
before the `try` block, so their exceptions escape uncaught. -/
theorem handler_boundary_spec
    (gov gov2 : List (String × String) → Except String Json)
    (nad : String → List (String × String) → Except String Json)
    (post : String → List (String × Json) → Except String Json)
    (qc qs cc qn : Option String) (fs : List (String × Json))
    (h : (dealsPayload fs).isOk = true) :
    ((citiesHandler gov qc).1.status = 200 ∨ (citiesHandler gov qc).1.status = 502) ∧
    ((streetsHandler gov2 qs cc).1.status = 200 ∨
      (streetsHandler gov2 qs cc).1.status = 502) ∧
    ((searchHandler nad qn).1.status = 400 ∨ (searchHandler nad qn).1.status = 200 ∨
      (searchHandler nad qn).1.status = 502) ∧
    (∃ resp calls, dealsHandler post (some (.obj fs)) = .ok (resp, calls) ∧
      (resp.status = 400 ∨ resp.status = 200 ∨ resp.status = 502)) := by
  refine ⟨?_, ?_, ?_, ?_⟩
  · by_cases hq : (pyStrip (qc.getD "")).length < 2
    · simp [citiesHandler, hq]
    · simp only [citiesHandler, if_neg hq]
      rcases gov (govGetParams citiesResource (pyStrip (qc.getD "")) [] 8) with e | data
      · simp [errorResponse]
      · rcases hcb : citiesBody data with e | b <;> simp [errorResponse, hcb]
  · by_cases hq : (pyStrip (qs.getD "")).length < 2
    · simp [streetsHandler, hq]
    · simp only [streetsHandler, if_neg hq]
      rcases gov2 (govGetParams streetsResource (pyStrip (qs.getD ""))
          (if pyStrip (cc.getD "") ≠ "" then [("סמל_ישוב", pyStrip (cc.getD ""))] else [])
          12) with e | data
      · simp [errorResponse]
      · rcases hsb : streetsBody data with e | b <;> simp [errorResponse, hsb]
  · by_cases hq : pyStrip (qn.getD "") = ""
    · simp [searchHandler, hq]
    · simp only [searchHandler, if_neg hq]
      rcases nad "GetSuggestV2"
          [("searchText", pyStrip (qn.getD "")), ("resultType", "0")] with e | data
      · simp [errorResponse]
      · rcases data with _ | b | n | s | xs | gs <;>
          simp [errorResponse, pyGetD, Json.asObj]
  · by_cases hm : missingOf fs = []
    · rcases hp : dealsPayload fs with e | payload
      · rw [hp] at h
        simp [Except.isOk, Except.toBool] at h
      · rcases hpost : post "GetAssestAndDeals" payload with e | data
        · exact ⟨errorResponse e, [("GetAssestAndDeals", payload)],
            by simp [dealsHandler, deals_body_obj, Json.asObj, hm, hp, hpost],
            by simp [errorResponse]⟩
        · rcases hsh : (do
              let deals ← pyGetD data "AllResults" (.arr [])
              let total ← pyGetD data "TotalCount" (.num 0)
              Except.ok (Json.obj [("deals", deals), ("totalCount", total),
                ("pageNo", (payload.lookup "PageNo").getD .null)]) :
                Except String Json) with e | b
          · exact ⟨errorResponse e, [("GetAssestAndDeals", payload)],
              by simp [dealsHandler, deals_body_obj, Json.asObj, hm, hp, hpost, hsh],
              by simp [errorResponse]⟩
          · exact ⟨⟨200, b⟩, [("GetAssestAndDeals", payload)],
              by simp [dealsHandler, deals_body_obj, Json.asObj, hm, hp, hpost, hsh],
              by simp⟩
    · refine ⟨⟨400, .obj [("error",
        .str ("Missing fields: " ++ pyListRepr (missingOf fs)))]⟩, [], ?_, by simp⟩
      simp [dealsHandler, deals_body_obj, Json.asObj, hm]

/-- Witness for C2 amended: a valid body whose upstream call fails yields a
502 response rather than an escaping exception. -/
theorem handler_boundary_spec_witness :
    ((citiesHandler (fun _ => .error "down") (some "a")).1.status = 200 ∨
      (citiesHandler (fun _ => .error "down") (some "a")).1.status = 502) ∧
    (∃ resp calls,
      dealsHandler (fun _ _ => .error "down")
        (some (.obj [("ObjectID", .str "1"), ("DescLayerID", .str "2"),
          ("ResultLable", .str "3")])) = .ok (resp, calls) ∧
      (resp.status = 400 ∨ resp.status = 200 ∨ resp.status = 502)) := by
  have h := handler_boundary_spec (fun _ => .error "down") (fun _ => .error "down")
    (fun _ _ => .error "down") (fun _ _ => .error "down")
    (some "a") (some "a") none (some "ab")
    [("ObjectID", .str "1"), ("DescLayerID", .str "2"), ("ResultLable", .str "3")]
    (by decide)
  exact ⟨h.1, h.2.2.2⟩

/-! ## C3: deduplication in `/cities` and `/streets` -/

/-- C3 counterexample: `/cities` performs NO deduplication.  A successful
upstream response whose records carry the same city name twice produces a
results list containing that name twice. -/
theorem cities_duplicates_not_deduped :
    citiesHandler
      (fun _ => .ok (.obj [("result", .obj [("records", .arr
        [.obj [("שם_ישוב", .str "A"), ("סמל_ישוב", .str "1")],
         .obj [("שם_ישוב", .str "A"), ("סמל_ישוב", .str "1")]])])]))
      (some "ab") =
    (⟨200, .obj [("results", .arr
      [.obj [("name", .str "A"), ("code", .str "1")],
       .obj [("name", .str "A"), ("code", .str "1")]])]⟩,
     [govGetParams citiesResource "ab" [] 8]) := by
  decide

/-- The `/streets` loop is extraction of the name sequence followed by the
truthy-and-first-seen filter. -/
theorem streetsLoop_eq_extract (records : List Json) :
    ∀ seen, streetsLoop seen records =
      (extractStreetNames records).map
        (fun ns => (dedupTruthy seen ns).map (fun n => Json.obj [("name", n)])) := by
  induction records with
  | nil => intro seen; rfl
  | cons r rs ih =>
    intro seen
    rcases h1 : pyGet r "שם_רחוב" with e | n1
    · simp [streetsLoop, extractStreetNames, streetNameOf, h1, Except.map]
    · rcases h2 : pyGet r "street_name" with e | n2
      · simp [streetsLoop, extractStreetNames, streetNameOf, h1, h2, Except.map]
      · by_cases hc : (pyOr (pyOr n1 n2) (.str "")).truthy = true ∧
            pyOr (pyOr n1 n2) (.str "") ∉ seen
        · simp only [streetsLoop, extractStreetNames, streetNameOf, h1, h2,
            except_bind_ok, except_pure_eq, if_pos hc, ih]
          rcases extractStreetNames rs with e | ns <;>
            simp [Except.map, dedupTruthy, hc]
        · simp only [streetsLoop, extractStreetNames, streetNameOf, h1, h2,
            except_bind_ok, except_pure_eq, if_neg hc, ih]
          rcases extractStreetNames rs with e | ns <;>
            simp [Except.map, dedupTruthy, hc]

/-- Names surviving the filter were not in the initial `seen` set. -/
theorem dedupTruthy_not_mem (ns : List Json) :
    ∀ seen m, m ∈ dedupTruthy seen ns → m ∉ seen := by
  induction ns with
  | nil => intro seen m hm; simp [dedupTruthy] at hm
  | cons n ns ih =>
    intro seen m hm
    by_cases hc : n.truthy = true ∧ n ∉ seen
    · rw [dedupTruthy, if_pos hc] at hm
      rcases List.mem_cons.mp hm with rfl | hm
      · exact hc.2
      · intro hseen
        exact ih (n :: seen) m hm (List.mem_cons_of_mem n hseen)
    · rw [dedupTruthy, if_neg hc] at hm
      exact ih seen m hm

/-- The filtered name sequence has no duplicates. -/
theorem dedupTruthy_nodup (ns : List Json) :
    ∀ seen, (dedupTruthy seen ns).Nodup := by
  induction ns with
  | nil => intro seen; simp [dedupTruthy]
  | cons n ns ih =>
    intro seen
    by_cases hc : n.truthy = true ∧ n ∉ seen
    · rw [dedupTruthy, if_pos hc]
      refine List.nodup_cons.mpr ⟨?_, ih (n :: seen)⟩
      intro hmem
      exact dedupTruthy_not_mem ns (n :: seen) n hmem (List.mem_cons_self n seen)
    · rw [dedupTruthy, if_neg hc]
      exact ih seen

/-- The filtered name sequence is a sublist of the extracted one: kept names
appear in first-seen order. -/
theorem dedupTruthy_sublist (ns : List Json) :
    ∀ seen, List.Sublist (dedupTruthy seen ns) ns := by
  induction ns with
  | nil => intro seen; simp [dedupTruthy]
  | cons n ns ih =>
    intro seen
    by_cases hc : n.truthy = true ∧ n ∉ seen
    · rw [dedupTruthy, if_pos hc]
      exact List.Sublist.cons₂ n (ih (n :: seen))
    · rw [dedupTruthy, if_neg hc]
      exact List.Sublist.cons n (ih seen)

/-- C3 amended: only `/streets` deduplicates.  Its results are the extracted
name sequence filtered to truthy first occurrences: duplicate-free and a
sublist of the name sequence, i.e. each distinct name at most once, in
first-seen order.  (`/cities` returns duplicates unchanged, per the
counterexample.) -/
theorem streets_dedup_first_seen (seen records out : List Json)
    (h : streetsLoop seen records = .ok out) :
    ∃ names, extractStreetNames records = .ok names ∧
      out = (dedupTruthy seen names).map (fun n => Json.obj [("name", n)]) ∧
      (dedupTruthy seen names).Nodup ∧ List.Sublist (dedupTruthy seen names) names := by
  rw [streetsLoop_eq_extract] at h
  rcases he : extractStreetNames records with e | names <;> rw [he] at h
  · simp [Except.map] at h
  · simp only [Except.map] at h
    exact ⟨names, rfl, (Except.ok.injEq _ _ ▸ h).symm,
      dedupTruthy_nodup names seen, dedupTruthy_sublist names seen⟩

/-- Witness for C3 amended: two records with the same street name yield a
single entry. -/
theorem streets_dedup_first_seen_witness :
    ∃ names, extractStreetNames
        [.obj [("שם_רחוב", .str "S")], .obj [("street_name", .str "S")]] = .ok names ∧
      [Json.obj [("name", .str "S")]] =
        (dedupTruthy [] names).map (fun n => Json.obj [("name", n)]) ∧
      (dedupTruthy [] names).Nodup ∧ List.Sublist (dedupTruthy [] names) names :=
  streets_dedup_first_seen []
    [.obj [("שם_רחוב", .str "S")], .obj [("street_name", .str "S")]]
    [Json.obj [("name", .str "S")]] (by decide)

/-! ## C6: the upstream payload of `POST /deals` -/

/-- C6 counterexample: the payload sent to `GetAssestAndDeals` has 27
fields, not 25. -/
theorem deals_payload_27_fields :
    (dealsPayload [("ObjectID", .str "1"), ("DescLayerID", .str "2"),
      ("ResultLable", .str "3")]).map List.length = .ok 27 ∧ (27 : Nat) ≠ 25 := by
  constructor
  · decide
  · decide

/-- C6 amended: the payload is a fixed 27-field object with sort fixed to
deal-date descending (`OrderByFilled = "DEALDATETIME"`,
`OrderByDescending = true`), `isHistorical = false`, and absent optional
inputs defaulting to `ObjectIDType = "text"`, `ObjectKey = "UNIQ_ID"`,
`X = 0`, `Y = 0`, `PageNo = 1`, `Rooms = 0` (the room filter field
`FillterRoomNum`). -/
theorem deals_payload_spec (fs payload : List (String × Json))
    (h : dealsPayload fs = .ok payload) :
    payload.map Prod.fst =
      ["MoreAssestsType", "FillterRoomNum", "GridDisplayType", "ResultLable",
       "ResultType", "ObjectID", "ObjectIDType", "ObjectKey", "DescLayerID",
       "Alert", "X", "Y", "Gush", "Parcel", "showLotParcel", "showLotAddress",
       "OriginalSearchString", "MutipuleResults", "ResultsOptions",
       "CurrentLavel", "Navs", "QueryMapParams", "isHistorical", "PageNo",
       "OrderByFilled", "OrderByDescending", "Distance"] ∧
    payload.length = 27 ∧
    payload.lookup "OrderByFilled" = some (.str "DEALDATETIME") ∧
    payload.lookup "OrderByDescending" = some (.bool true) ∧
    payload.lookup "isHistorical" = some (.bool false) ∧
    (fs.lookup "ObjectIDType" = none →
      payload.lookup "ObjectIDType" = some (.str "text")) ∧
    (fs.lookup "ObjectKey" = none →
      payload.lookup "ObjectKey" = some (.str "UNIQ_ID")) ∧
    (fs.lookup "X" = none → payload.lookup "X" = some (.num 0)) ∧
    (fs.lookup "Y" = none → payload.lookup "Y" = some (.num 0)) ∧
    (fs.lookup "PageNo" = none → payload.lookup "PageNo" = some (.num 1)) ∧
    (fs.lookup "Rooms" = none →
      payload.lookup "FillterRoomNum" = some (.num 0)) := by
  unfold dealsPayload at h
  rcases h1 : pyInt ((fs.lookup "Rooms").getD (Json.num 0)) with e | rooms <;>
    rw [h1] at h
  · simp at h
  rcases h2 : pyIndex fs "ResultLable" with e | rl <;> rw [h2] at h
  · simp at h
  rcases h3 : pyIndex fs "ObjectID" with e | oid <;> rw [h3] at h
  · simp at h
  rcases h4 : pyIndex fs "DescLayerID" with e | dlid <;> rw [h4] at h
  · simp at h
  rcases h5 : pyInt ((fs.lookup "PageNo").getD (Json.num 1)) with e | pageNo <;>
    rw [h5] at h
  · simp at h
  simp only [except_bind_ok, except_pure_eq] at h
  injection h with h
  subst h
  refine ⟨by simp, by simp, by simp [List.lookup], by simp [List.lookup],
    by simp [List.lookup], ?_, ?_, ?_, ?_, ?_, ?_⟩
  · intro hnone
    simp [List.lookup, hnone]
  · intro hnone
    simp [List.lookup, hnone]
  · intro hnone
    simp [List.lookup, hnone]
  · intro hnone
    simp [List.lookup, hnone]
  · intro hnone
    rw [hnone] at h5
    have : pageNo = 1 := by
      simpa [pyInt] using h5.symm
    simp [List.lookup, this]
  · intro hnone
    rw [hnone] at h1
    have : rooms = 0 := by
      simpa [pyInt] using h1.symm
    simp [List.lookup, this]

/-- Witness for C6 amended at a minimal valid body. -/
theorem deals_payload_spec_witness :
    ((dealsPayload [("ObjectID", .str "1"), ("DescLayerID", .str "2"),
        ("ResultLable", .str "3")]).map (fun p => p.lookup "OrderByFilled")) =
      .ok (some (.str "DEALDATETIME")) := by
  have h := deals_payload_spec
    [("ObjectID", .str "1"), ("DescLayerID", .str "2"), ("ResultLable", .str "3")]
    ((dealsPayload [("ObjectID", .str "1"), ("DescLayerID", .str "2"),
        ("ResultLable", .str "3")]).toOption.getD []) (by decide)
  rw [show (dealsPayload [("ObjectID", .str "1"), ("DescLayerID", .str "2"),
        ("ResultLable", .str "3")]) = .ok ((dealsPayload [("ObjectID", .str "1"),
        ("DescLayerID", .str "2"), ("ResultLable", .str "3")]).toOption.getD [])
      from by decide]
  simpa [Except.map] using h.2.2.1

/-! ## C7: the `gov_get` request -/

/-- C7 counterexample: `gov_get` takes no sort argument and its params never
carry a `sort` key — even on the filtered streets query the keys are exactly
`resource_id`, `q`, `limit` and (when filters are supplied) `filters`. -/
theorem gov_get_no_sort :
    (govGetParams citiesResource "ab" [] 8).map Prod.fst =
      ["resource_id", "q", "limit"] ∧
    List.lookup "sort" (govGetParams citiesResource "ab" [] 8) = none ∧
    (govGetParams streetsResource "ab" [("סמל_ישוב", "5000")] 12).map Prod.fst =
      ["resource_id", "q", "limit", "filters"] ∧
    List.lookup "sort" (govGetParams streetsResource "ab" [("סמל_ישוב", "5000")] 12) =
      none := by
  refine ⟨by decide, by decide, by decide, by decide⟩

/-- C7 amended: every `gov_get` request carries `resource_id`, the free-text
`q` and the `limit`; the `filters` dict is JSON-encoded and added exactly
when it is supplied and nonempty; there is no `sort` parameter; a non-2xx
response fails immediately — a single HTTP request is issued and its error
is propagated unchanged with no retry. -/
theorem gov_get_request_spec (http : List (String × String) → Except String Json)
    (rid q : String) (filters : List (String × String)) (limit : Nat) :
    (filters = [] → govGetParams rid q filters limit =
      [("resource_id", rid), ("q", q), ("limit", toString limit)]) ∧
    (filters ≠ [] → govGetParams rid q filters limit =
      [("resource_id", rid), ("q", q), ("limit", toString limit),
       ("filters", jsonDumpsObj filters)]) ∧
    List.lookup "sort" (govGetParams rid q filters limit) = none ∧
    (gov_get http rid q filters limit).2 = 1 ∧
    (∀ e, http (govGetParams rid q filters limit) = .error e →
      (gov_get http rid q filters limit).1 = .error e) := by
  refine ⟨fun hf => by simp [govGetParams, hf], fun hf => by simp [govGetParams, hf],
    ?_, rfl, fun e he => by simp [gov_get, he]⟩
  by_cases hf : filters = [] <;>
    simp [govGetParams, hf, List.lookup]

/-- Witness for C7 amended on the streets query with a city filter. -/
theorem gov_get_request_spec_witness :
    govGetParams streetsResource "ab" [("סמל_ישוב", "5000")] 12 =
      [("resource_id", streetsResource), ("q", "ab"), ("limit", toString 12),
       ("filters", jsonDumpsObj [("סמל_ישוב", "5000")])] :=
  (gov_get_request_spec (fun _ => .error "down") streetsResource "ab"
    [("סמל_ישוב", "5000")] 12).2.1 (by decide)
